import Mathlib

/-!
Verification development for the LoCave base-station engine
(IRNAS irnas-locave-software).

The repository ships the browser UI (flash-ui, TypeScript) and the user
manual; the Python protocol/engine sources are not part of the visible
tree.  Definitions below that embed the missing engine are marked
`Modelled from the spec:` and follow the specification's words; the
TypeScript declarations that are present (BotInfo, NodeData, Message,
TopologyNode) are embedded directly from the source.
-/

namespace LoCave

/-- Modelled from the spec: node communication modes (README "Nodes switch
between optical and RF communication", spec data model). -/
inductive Mode
  | FIBER_ONLY
  | FIBER_CAVE_RF
  | FIBER_EXIT_RF
  | RF_ONLY
deriving DecidableEq, Repr

/-- Modelled from the spec: wire tag for a mode. -/
def Mode.toTag : Mode → Nat
  | .FIBER_ONLY => 0
  | .FIBER_CAVE_RF => 1
  | .FIBER_EXIT_RF => 2
  | .RF_ONLY => 3

/-- Modelled from the spec: NeighborRef — (node_id, interface_id, rssi);
matches the `Neighbor` triple in flash-ui/app/topology/page.tsx. -/
structure NeighborRef where
  node_id : Nat
  interface_id : Nat
  rssi : Int
deriving DecidableEq, Repr

/-- Modelled from the spec: optional weather tuple (temperature, humidity,
pressure), as in TopologyNode.weather. -/
structure Weather where
  temperature : Int
  humidity : Int
  pressure : Int
deriving DecidableEq, Repr

/-- Modelled from the spec: the typed protocol events of the Packet Codec
(spec 4.1).  Battery voltage is carried as integer millivolts on the wire;
the float view is presentation-side. -/
inductive TypedEvent
  | TextMessage (source dest : Nat) (content : String)
  | NeighborReport (node_id : Nat) (neighbors : List NeighborRef)
  | TelemetryReport (node_id : Nat) (battery : Int) (charging : Bool)
      (weather : Option Weather)
  | ModeReport (node_id : Nat) (mode : Mode)
  | DeployPing (node_id : Nat) (rssi : Int)
  | DeliveryAck (message_id : Nat)
deriving DecidableEq, Repr

/-- Modelled from the spec: decode failure taxonomy — checksum mismatch,
unknown event tag, truncated/malformed frame (spec 4.1, 7). -/
inductive DecodeError
  | checksumMismatch
  | unknownTag
  | truncated
deriving DecidableEq, Repr

/-- Modelled from the spec: signed wire integers (rssi dBm, temperatures)
are zigzag-encoded as naturals. -/
def encInt (i : Int) : Nat :=
  if 0 ≤ i then 2 * i.toNat else 2 * (-i).toNat - 1

/-- Modelled from the spec: inverse of `encInt`. -/
def decInt (n : Nat) : Int :=
  if n % 2 = 0 then ((n / 2 : Nat) : Int) else -(((n / 2 : Nat) : Int) + 1)

theorem decInt_encInt (i : Int) : decInt (encInt i) = i := by
  simp only [decInt, encInt]
  by_cases h : 0 ≤ i
  · simp only [if_pos h]
    have h2 : (2 * i.toNat) % 2 = 0 := by omega
    simp only [if_pos h2]
    omega
  · simp only [if_neg h]
    have h1 : 1 ≤ (-i).toNat := by omega
    have h2 : ¬((2 * (-i).toNat - 1) % 2 = 0) := by omega
    simp only [if_neg h2]
    omega

/-- Modelled from the spec: text content is carried as a length-counted run
of character codes. -/
def encChars (s : String) : List Nat := s.data.map Char.toNat

/-- Modelled from the spec: rebuild a string from character codes. -/
def decChars (l : List Nat) : String := ⟨l.map Char.ofNat⟩

theorem decChars_encChars (s : String) : decChars (encChars s) = s := by
  cases s with
  | mk data =>
    simp [decChars, encChars, List.map_map, Function.comp_def, Char.ofNat_toNat]

/-- Modelled from the spec: a neighbor entry is three wire words. -/
def encNeighbor (nb : NeighborRef) : List Nat :=
  [nb.node_id, nb.interface_id, encInt nb.rssi]

/-- Modelled from the spec: the flattened neighbor block of a
NeighborReport. -/
def encNeighbors (nbs : List NeighborRef) : List Nat :=
  nbs.flatMap encNeighbor

/-- Modelled from the spec: parse exactly `count` neighbor triples,
rejecting trailing words. -/
def decNeighbors : Nat → List Nat →  Option (List NeighborRef)
  | 0, [] => some []
  | 0, _ :: _ => none
  | k + 1, a :: b :: r :: rest =>
      (decNeighbors k rest).map (fun tl => ⟨a, b, decInt r⟩ :: tl)
  | _ + 1, [] => none
  | _ + 1, [_] => none
  | _ + 1, [_, _] => none

theorem decNeighbors_encNeighbors (nbs : List NeighborRef) :
    decNeighbors nbs.length (encNeighbors nbs) = some nbs := by
  induction nbs with
  | nil => rfl
  | cons nb tl ih =>
    have h : encNeighbors (nb :: tl)
        = nb.node_id :: nb.interface_id :: encInt nb.rssi :: encNeighbors tl := by
      simp [encNeighbors, encNeighbor]
    rw [List.length_cons, h]
    simp only [decNeighbors]
    rw [ih]
    simp [decInt_encInt]

/-- Modelled from the spec: the optional weather block. -/
def encWeather : Option Weather → List Nat
  | none => [0]
  | some w => [1, encInt w.temperature, encInt w.humidity, encInt w.pressure]

/-- Modelled from the spec: the event body — tag word followed by the
event's fields (spec 4.1). -/
def encodeBody : TypedEvent → List Nat
  | .TextMessage source dest content =>
      0 :: source :: dest :: content.data.length :: encChars content
  | .NeighborReport node_id neighbors =>
      1 :: node_id :: neighbors.length :: encNeighbors neighbors
  | .TelemetryReport node_id battery charging weather =>
      2 :: node_id :: encInt battery :: (cond charging 1 0) :: encWeather weather
  | .ModeReport node_id mode => [3, node_id, mode.toTag]
  | .DeployPing node_id rssi => [4, node_id, encInt rssi]
  | .DeliveryAck message_id => [5, message_id]

/-- Modelled from the spec: frame checksum over the body words. -/
def checksum (body : List Nat) : Nat := body.foldl (· + ·) 0 % 256

/-- Modelled from the spec: `encode(command) -> frame` — body plus trailing
checksum word (spec 4.1). -/
def encode (e : TypedEvent) : List Nat :=
  encodeBody e ++ [checksum (encodeBody e)]

/-- Modelled from the spec: parse an event body after the checksum has been
verified and stripped; malformed or short payloads report `truncated`,
unrecognized leading tags report `unknownTag`. -/
def decodeBody : List Nat → Except DecodeError TypedEvent
  | [] => .error .truncated
  | 0 :: source :: dest :: n :: cs =>
      if cs.length = n then .ok (.TextMessage source dest (decChars cs))
      else .error .truncated
  | 1 :: node_id :: count :: rest =>
      if count ≤ 3 then
        match decNeighbors count rest with
        | some nbs => .ok (.NeighborReport node_id nbs)
        | none => .error .truncated
      else .error .truncated
  | 2 :: node_id :: bat :: chg :: rest =>
      match chg, rest with
      | 0, [0] => .ok (.TelemetryReport node_id (decInt bat) false none)
      | 1, [0] => .ok (.TelemetryReport node_id (decInt bat) true none)
      | 0, [1, t, h, p] =>
          .ok (.TelemetryReport node_id (decInt bat) false
            (some ⟨decInt t, decInt h, decInt p⟩))
      | 1, [1, t, h, p] =>
          .ok (.TelemetryReport node_id (decInt bat) true
            (some ⟨decInt t, decInt h, decInt p⟩))
      | _, _ => .error .truncated
  | 3 :: node_id :: m :: rest =>
      match m, rest with
      | 0, [] => .ok (.ModeReport node_id .FIBER_ONLY)
      | 1, [] => .ok (.ModeReport node_id .FIBER_CAVE_RF)
      | 2, [] => .ok (.ModeReport node_id .FIBER_EXIT_RF)
      | 3, [] => .ok (.ModeReport node_id .RF_ONLY)
      | _, _ => .error .truncated
  | 4 :: node_id :: r :: rest =>
      match rest with
      | [] => .ok (.DeployPing node_id (decInt r))
      | _ => .error .truncated
  | 5 :: message_id :: rest =>
      match rest with
      | [] => .ok (.DeliveryAck message_id)
      | _ => .error .truncated
  | 0 :: _ => .error .truncated
  | 1 :: _ => .error .truncated
  | 2 :: _ => .error .truncated
  | 3 :: _ => .error .truncated
  | 4 :: _ => .error .truncated
  | 5 :: _ => .error .truncated
  | _ :: _ => .error .unknownTag

/-- Modelled from the spec: `decode(frame) -> TypedEvent | DecodeError` —
split off the trailing checksum word, verify it, then parse the body
(spec 4.1). -/
def decode (frame : List Nat) : Except DecodeError TypedEvent :=
  match frame.reverse with
  | [] => .error .truncated
  | cs :: rbody =>
      let body := rbody.reverse
      if checksum body = cs then decodeBody body else .error .checksumMismatch

theorem decode_body_checksum (body : List Nat) :
    decode (body ++ [checksum body]) = decodeBody body := by
  simp [decode, List.reverse_append]

/-- Modelled from the spec: a well-formed event as the engine produces it —
a NeighborReport carries at most 3 neighbor entries (spec 4.2). -/
def validEvent : TypedEvent → Bool
  | .NeighborReport _ neighbors => neighbors.length ≤ 3
  | _ => true

theorem decodeBody_encodeBody (e : TypedEvent) (h : validEvent e = true) :
    decodeBody (encodeBody e) = .ok e := by
  cases e with
  | TextMessage source dest content =>
      have hc := decChars_encChars content
      simp only [encChars] at hc
      simp [encodeBody, decodeBody, encChars, hc]
  | NeighborReport node_id neighbors =>
      simp only [validEvent, decide_eq_true_eq] at h
      simp [encodeBody, decodeBody, h, decNeighbors_encNeighbors]
  | TelemetryReport node_id battery charging weather =>
      cases charging <;> rcases weather with _ | ⟨t, hu, p⟩ <;>
        simp [encodeBody, decodeBody, encWeather, decInt_encInt]
  | ModeReport node_id mode =>
      cases mode <;> simp [encodeBody, decodeBody, Mode.toTag]
  | DeployPing node_id rssi =>
      simp [encodeBody, decodeBody, decInt_encInt]
  | DeliveryAck message_id =>
      simp [encodeBody, decodeBody]

/-- C3: for every valid typed protocol event (TextMessage, NeighborReport,
TelemetryReport, ModeReport, DeployPing, DeliveryAck), decoding the frame
produced by encoding it yields the original event:
decode(encode(event)) == event. -/
theorem decode_encode_roundtrip (e : TypedEvent) (h : validEvent e = true) :
    decode (encode e) = .ok e := by
  rw [encode, decode_body_checksum]
  exact decodeBody_encodeBody e h

/-- Witness for C3 at a concrete TextMessage. -/
theorem decode_encode_roundtrip_witness :
    validEvent (.TextMessage 1 0 ("ok")) = true ∧
      decode (encode (.TextMessage 1 0 ("ok"))) = .ok (.TextMessage 1 0 ("ok")) :=
  ⟨rfl, decode_encode_roundtrip (.TextMessage 1 0 ("ok")) rfl⟩

/-- Modelled from the spec: delivery state of a Message (spec data model). -/
inductive DeliveryState
  | PENDING
  | CONFIRMED
  | FAILED
deriving DecidableEq, Repr

/-- Modelled from the spec: direction of a Message. -/
inductive Direction
  | outbound
  | inbound
deriving DecidableEq, Repr

/-- Modelled from the spec: the design-constant liveness TTL a node record
carries (spec 4.2; NodeData.ttl in flash-ui/app/page.tsx). -/
def NODE_TTL : Nat := 60

/-- Modelled from the spec: confirmation deadline in seconds after which a
PENDING outbound message times out to FAILED (spec 4.3). -/
def CONFIRM_DEADLINE : Nat := 30

/-- Modelled from the spec: a Node record of the Topology and Liveness
Tracker (spec data model; NodeData and TopologyNode in flash-ui). -/
structure NodeRec where
  last_seen : Nat
  ttl : Nat
  mode : Option Mode
  battery : Option Int
  charging : Option Bool
  neighbors : List NeighborRef
  weather : Option Weather
deriving DecidableEq, Repr

/-- Modelled from the spec: a node record created on first report
referencing an unseen id. -/
def emptyNode (now : Nat) : NodeRec :=
  ⟨now, NODE_TTL, none, none, none, [], none⟩

/-- Modelled from the spec: a Message of the Delivery Tracker (spec data
model; Message in flash-ui/app/page.tsx). -/
structure Message where
  id : Nat
  timestamp : Nat
  source : Nat
  dest : Nat
  direction : Direction
  content : String
  delivery_state : DeliveryState
deriving DecidableEq, Repr

/-- Modelled from the spec: the Engine Coordinator's shared state — node
table and message log, both volatile. -/
structure EngineState where
  nodes : List (Nat × NodeRec)
  messages : List Message
  next_id : Nat
deriving DecidableEq, Repr

/-- Modelled from the spec: state at process boot — everything reset. -/
def EngineState.empty : EngineState := ⟨[], [], 0⟩

/-- Modelled from the spec: write a node record into the table, replacing
the record at that id or inserting a fresh entry. -/
def setNode : List (Nat × NodeRec) → Nat → NodeRec → List (Nat × NodeRec)
  | [], x, r => [(x, r)]
  | p :: rest, x, r =>
      if p.1 = x then (x, r) :: rest else p :: setNode rest x r

/-- Modelled from the spec: query a node's last known record. -/
def lookupNode (st : EngineState) (x : Nat) : Option NodeRec :=
  (st.nodes.find? (fun p => p.1 == x)).map (fun p => p.2)

/-- Modelled from the spec: update one node record, bumping last_seen, and
creating the record on first report. -/
def touchNode (st : EngineState) (x now : Nat) (f : NodeRec → NodeRec) :
    EngineState :=
  let base := (lookupNode st x).getD (emptyNode now)
  { st with nodes := setNode st.nodes x (f { base with last_seen := now }) }

/-- Modelled from the spec: `submit(content, dest) -> message_id` creates a
PENDING outbound Message and returns its id at once (spec 4.3). -/
def submit (st : EngineState) (content : String) (dest now : Nat) :
    EngineState × Nat :=
  ({ st with
      messages :=
        ⟨st.next_id, now, 0, dest, .outbound, content, .PENDING⟩ :: st.messages,
      next_id := st.next_id + 1 },
    st.next_id)

/-- Modelled from the spec: effect of one DeliveryAck on one message —
PENDING goes to CONFIRMED, anything else is left alone. -/
def ackOne (message_id : Nat) (m : Message) : Message :=
  if m.id = message_id then
    if m.delivery_state = .PENDING then { m with delivery_state := .CONFIRMED }
    else m
  else m

/-- Modelled from the spec: `on_ack(message_id)` transitions
PENDING to CONFIRMED; a duplicate ack is a no-op, not an error (spec 4.3). -/
def on_ack (st : EngineState) (message_id : Nat) : EngineState :=
  { st with messages := st.messages.map (ackOne message_id) }

/-- Modelled from the spec: effect of the timeout sweep on one message —
PENDING past the confirmation deadline goes to FAILED. -/
def sweepOne (now : Nat) (m : Message) : Message :=
  if m.delivery_state = .PENDING then
    if CONFIRM_DEADLINE < now - m.timestamp then { m with delivery_state := .FAILED }
    else m
  else m

/-- Modelled from the spec: the periodic background timeout sweep
(spec 4.3). -/
def sweep (st : EngineState) (now : Nat) : EngineState :=
  { st with messages := st.messages.map (sweepOne now) }

/-- Modelled from the spec: `ingest(TextMessage)` appends an inbound
Message directly as CONFIRMED (spec 4.3). -/
def ingest (st : EngineState) (source dest : Nat) (content : String)
    (now : Nat) : EngineState :=
  { st with
      messages :=
        ⟨st.next_id, now, source, dest, .inbound, content, .CONFIRMED⟩ :: st.messages,
      next_id := st.next_id + 1 }

/-- Modelled from the spec: the Engine Coordinator dispatching one decoded
event to the component that owns it (spec 2, 4.2, 4.3). -/
def dispatch (now : Nat) (st : EngineState) : TypedEvent → EngineState
  | .TextMessage source dest content => ingest st source dest content now
  | .NeighborReport x nbs => touchNode st x now (fun r => { r with neighbors := nbs })
  | .TelemetryReport x bat chg w =>
      touchNode st x now
        (fun r => { r with battery := some bat, charging := some chg, weather := w })
  | .ModeReport x m => touchNode st x now (fun r => { r with mode := some m })
  | .DeployPing x _ => touchNode st x now (fun r => r)
  | .DeliveryAck mid => on_ack st mid

/-- Modelled from the spec: handle one raw frame — decode, dispatch on
success, drop the frame and surface the error on failure (spec 4.1, 7). -/
def handleFrame (now : Nat) (st : EngineState) (frame : List Nat) :
    EngineState × Option DecodeError :=
  match decode frame with
  | .ok e => (dispatch now st e, none)
  | .error err => (st, some err)

theorem decodeBody_high_tag (k : Nat) (payload : List Nat) :
    decodeBody ((k + 6) :: payload) = .error .unknownTag := rfl

/-- C4: for every corrupt frame (checksum mismatch, unknown event tag, or
truncated frame), decode returns a DecodeError, and the engine state —
node table and message log — is exactly the same after the call as
before it. -/
theorem decode_error_state_untouched :
    (∀ body c, checksum body ≠ c → decode (body ++ [c]) = .error .checksumMismatch) ∧
    (∀ tag payload, 6 ≤ tag →
      decode ((tag :: payload) ++ [checksum (tag :: payload)]) = .error .unknownTag) ∧
    decode [] = .error .truncated ∧
    (∀ now st frame err, decode frame = .error err →
      handleFrame now st frame = (st, some err)) := by
  refine ⟨?_, ?_, rfl, ?_⟩
  · intro body c h
    simp [decode, List.reverse_append, h]
  · intro tag payload h
    obtain ⟨k, rfl⟩ : ∃ k, tag = k + 6 := ⟨tag - 6, by omega⟩
    rw [decode_body_checksum]
    exact decodeBody_high_tag k payload
  · intro now st frame err h
    simp [handleFrame, h]

/-- Witness for C4: a flipped checksum makes decode fail and leaves a
concrete engine state untouched. -/
theorem decode_error_state_untouched_witness :
    decode [0, 1] = .error .checksumMismatch ∧
      decode [6, 6] = .error .unknownTag ∧
      handleFrame 3 EngineState.empty [0, 1] =
        (EngineState.empty, some .checksumMismatch) := by
  refine ⟨?_, ?_, ?_⟩
  · exact decode_error_state_untouched.1 [0] 1 (by decide)
  · exact decode_error_state_untouched.2.1 6 [] (by decide)
  · exact decode_error_state_untouched.2.2.2 3 EngineState.empty [0, 1]
      .checksumMismatch (decode_error_state_untouched.1 [0] 1 (by decide))

/-- Modelled from the spec: `seconds_ago = now - last_seen` (spec 4.2). -/
def seconds_ago (now last_seen : Nat) : Nat := now - last_seen

/-- Modelled from the spec: a node is reported alive while
seconds_ago < ttl (spec 4.2). -/
def isAlive (now : Nat) (r : NodeRec) : Bool :=
  seconds_ago now r.last_seen < r.ttl

/-- Modelled from the spec: the liveness-sensitive snapshot view omits
stale nodes (spec 4.2; the online-nodes listing in flash-ui). -/
def liveSnapshot (st : EngineState) (now : Nat) : List (Nat × NodeRec) :=
  st.nodes.filter (fun p => isAlive now p.2)

/-- Modelled from the spec: explicitly reap a node's last known record. -/
def reap (st : EngineState) (x : Nat) : EngineState :=
  { st with nodes := st.nodes.filter (fun p => !(p.1 == x)) }

/-- C5: a node is reported alive exactly when seconds_ago < ttl; a node at
or past its TTL is excluded from the live snapshot, exactly at the TTL
boundary, yet its last known record remains queryable until explicitly
reaped. -/
theorem live_snapshot_ttl :
    (∀ st now p, p ∈ liveSnapshot st now ↔
      p ∈ st.nodes ∧ seconds_ago now p.2.last_seen < p.2.ttl) ∧
    (∀ st now x r, (x, r) ∈ st.nodes → r.ttl ≤ seconds_ago now r.last_seen →
      (x, r) ∉ liveSnapshot st now ∧ ∃ r2, lookupNode st x = some r2) ∧
    (∀ st x, lookupNode (reap st x) x = none) := by
  refine ⟨?_, ?_, ?_⟩
  · intro st now p
    simp [liveSnapshot, List.mem_filter, isAlive]
  · intro st now x r hmem hstale
    constructor
    · simp only [liveSnapshot, List.mem_filter, isAlive]
      rintro ⟨-, hc⟩
      simp only [decide_eq_true_eq] at hc
      omega
    · have : (st.nodes.find? (fun p => p.1 == x)).isSome := by
        rw [List.find?_isSome]
        exact ⟨(x, r), hmem, by simp⟩
      rcases ho : st.nodes.find? (fun p => p.1 == x) with _ | p
      · rw [ho] at this
        simp at this
      · exact ⟨p.2, by simp [lookupNode, ho]⟩
  · intro st x
    simp only [lookupNode, reap]
    rw [List.find?_filter]
    simp

/-- Witness for C5: a node exactly at the TTL boundary is out of the live
view but still queryable. -/
theorem live_snapshot_ttl_witness :
    ((7, emptyNode 0) ∉
        liveSnapshot ⟨[(7, emptyNode 0)], [], 0⟩ NODE_TTL ∧
      ∃ r2, lookupNode ⟨[(7, emptyNode 0)], [], 0⟩ 7 = some r2) ∧
      lookupNode (reap ⟨[(7, emptyNode 0)], [], 0⟩ 7) 7 = none :=
  ⟨live_snapshot_ttl.2.1 ⟨[(7, emptyNode 0)], [], 0⟩ NODE_TTL 7 (emptyNode 0)
      (by simp) (by decide),
    live_snapshot_ttl.2.2 ⟨[(7, emptyNode 0)], [], 0⟩ 7⟩

theorem find?_setNode_self (nodes : List (Nat × NodeRec)) (x : Nat)
    (r : NodeRec) :
    (setNode nodes x r).find? (fun p => p.1 == x) = some (x, r) := by
  induction nodes with
  | nil => simp [setNode]
  | cons p rest ih =>
    by_cases h : p.1 = x
    · simp [setNode, h]
    · simp only [setNode, if_neg h]
      rw [List.find?_cons_of_neg _ (by simp [h])]
      exact ih

theorem find?_setNode_other (nodes : List (Nat × NodeRec)) (x y : Nat)
    (r : NodeRec) (hxy : y ≠ x) :
    (setNode nodes x r).find? (fun p => p.1 == y)
      = nodes.find? (fun p => p.1 == y) := by
  induction nodes with
  | nil => simp [setNode, Ne.symm hxy]
  | cons p rest ih =>
    by_cases h : p.1 = x
    · simp only [setNode, if_pos h]
      rw [List.find?_cons_of_neg _ (by simp [Ne.symm hxy]),
        List.find?_cons_of_neg _ (by simp [h, Ne.symm hxy])]
    · simp only [setNode, if_neg h]
      by_cases hy : p.1 = y
      · rw [List.find?_cons_of_pos _ (by simp [hy]),
          List.find?_cons_of_pos _ (by simp [hy])]
      · rw [List.find?_cons_of_neg _ (by simp [hy]),
          List.find?_cons_of_neg _ (by simp [hy])]
        exact ih

/-- Modelled from the spec: the neighbor list the topology view reports
for a node (empty when the node is unknown). -/
def neighborsOf (st : EngineState) (x : Nat) : List NeighborRef :=
  ((lookupNode st x).map (fun r => r.neighbors)).getD []

/-- C6: applying a NeighborReport for node X replaces X's neighbor list
wholesale with the reported set; no entry from an earlier report survives
unless it is also in the new report, and other nodes' records are
untouched. -/
theorem neighbor_report_full_replace (now : Nat) (st : EngineState) (x : Nat)
    (nbs : List NeighborRef) :
    neighborsOf (dispatch now st (.NeighborReport x nbs)) x = nbs ∧
    (∀ nb, nb ∈ neighborsOf (dispatch now st (.NeighborReport x nbs)) x →
      nb ∈ nbs) ∧
    (∀ y, y ≠ x →
      lookupNode (dispatch now st (.NeighborReport x nbs)) y = lookupNode st y) := by
  have hself : neighborsOf (dispatch now st (.NeighborReport x nbs)) x = nbs := by
    simp [dispatch, touchNode, neighborsOf, lookupNode, find?_setNode_self]
  refine ⟨hself, ?_, ?_⟩
  · intro nb hnb
    rw [hself] at hnb
    exact hnb
  · intro y hy
    simp only [dispatch, touchNode, lookupNode]
    rw [find?_setNode_other _ _ _ _ hy]

/-- Witness for C6: a second report for node 7 erases the first report's
entries. -/
theorem neighbor_report_full_replace_witness :
    neighborsOf
        (dispatch 2
          (dispatch 1 EngineState.empty (.NeighborReport 7 [⟨1, 0, -40⟩]))
          (.NeighborReport 7 [⟨0, 1, -60⟩])) 7 = [⟨0, 1, -60⟩] ∧
      lookupNode
        (dispatch 2
          (dispatch 1 EngineState.empty (.NeighborReport 7 [⟨1, 0, -40⟩]))
          (.NeighborReport 7 [⟨0, 1, -60⟩])) 3 =
        lookupNode
          (dispatch 1 EngineState.empty (.NeighborReport 7 [⟨1, 0, -40⟩])) 3 :=
  ⟨(neighbor_report_full_replace 2
      (dispatch 1 EngineState.empty (.NeighborReport 7 [⟨1, 0, -40⟩])) 7
      [⟨0, 1, -60⟩]).1,
    (neighbor_report_full_replace 2
      (dispatch 1 EngineState.empty (.NeighborReport 7 [⟨1, 0, -40⟩])) 7
      [⟨0, 1, -60⟩]).2.2 3 (by decide)⟩

/-- Modelled from the spec: the evolutions the Delivery Tracker allows a
message's delivery_state in one operation — stay put, or move forward from
PENDING to CONFIRMED or FAILED. -/
def stepOK (a b : DeliveryState) : Prop :=
  b = a ∨ (a = .PENDING ∧ (b = .CONFIRMED ∨ b = .FAILED))

theorem ackOne_idem (mid : Nat) (m : Message) :
    ackOne mid (ackOne mid m) = ackOne mid m := by
  unfold ackOne
  by_cases h1 : m.id = mid
  · by_cases h2 : m.delivery_state = .PENDING
    · simp [h1, h2]
    · simp [h1, h2]
  · simp [h1]

/-- C1: delivery_state only ever moves PENDING to CONFIRMED (on ack) or
PENDING to FAILED (on timeout), never backward; a duplicate DeliveryAck
for an already-CONFIRMED or FAILED message leaves it unchanged and raises
no error (on_ack stays total and idempotent). -/
theorem delivery_state_forward_only :
    (∀ st content dest now,
      ∃ m ∈ (submit st content dest now).1.messages,
        m.id = (submit st content dest now).2 ∧ m.delivery_state = .PENDING) ∧
    (∀ mid m, stepOK m.delivery_state (ackOne mid m).delivery_state) ∧
    (∀ now m, stepOK m.delivery_state (sweepOne now m).delivery_state) ∧
    (∀ mid m, m.delivery_state ≠ .PENDING → ackOne mid m = m) ∧
    (∀ st mid, on_ack (on_ack st mid) mid = on_ack st mid) := by
  refine ⟨?_, ?_, ?_, ?_, ?_⟩
  · intro st content dest now
    exact ⟨⟨st.next_id, now, 0, dest, .outbound, content, .PENDING⟩,
      List.mem_cons_self _ _, rfl, rfl⟩
  · intro mid m
    unfold ackOne stepOK
    by_cases h1 : m.id = mid
    · by_cases h2 : m.delivery_state = .PENDING
      · simp [h1, h2]
      · simp [h1, h2]
    · simp [h1]
  · intro now m
    unfold sweepOne stepOK
    by_cases h1 : m.delivery_state = .PENDING
    · by_cases h2 : CONFIRM_DEADLINE < now - m.timestamp
      · simp [h1, h2]
      · simp [h1, h2]
    · simp [h1]
  · intro mid m h
    unfold ackOne
    by_cases h1 : m.id = mid
    · simp [h1, h]
    · simp [h1]
  · intro st mid
    simp [on_ack, List.map_map, Function.comp_def, ackOne_idem]

/-- Witness for C1: a concrete CONFIRMED message is untouched by a
duplicate ack. -/
theorem delivery_state_forward_only_witness :
    ackOne 4 ⟨4, 0, 0, 5, .outbound, "hello", .CONFIRMED⟩
      = ⟨4, 0, 0, 5, .outbound, "hello", .CONFIRMED⟩ :=
  delivery_state_forward_only.2.2.2.1 4
    ⟨4, 0, 0, 5, .outbound, "hello", .CONFIRMED⟩ (by decide)

/-- Modelled from the spec: the message-history entry served to chat UIs —
id, timestamp, seconds_ago, source, dest, direction, content,
delivery_state (spec 6). -/
structure MessageView where
  id : Nat
  timestamp : Nat
  seconds_ago : Nat
  source : Nat
  dest : Nat
  direction : Direction
  content : String
  delivery_state : DeliveryState
deriving DecidableEq, Repr

/-- Modelled from the spec: project one stored Message to its view at
query time `now`. -/
def messageView (now : Nat) (m : Message) : MessageView :=
  ⟨m.id, m.timestamp, seconds_ago now m.timestamp, m.source, m.dest,
    m.direction, m.content, m.delivery_state⟩

/-- Modelled from the spec: `history(limit)` — the most recent `limit`
messages, most recent first (spec 4.3; the log is kept newest-first). -/
def history (st : EngineState) (now limit : Nat) : List MessageView :=
  (st.messages.take limit).map (messageView now)

/-- Modelled from the spec: the log invariant — newest first. -/
def recentFirst (msgs : List Message) : Prop :=
  msgs.Pairwise (fun a b => b.timestamp ≤ a.timestamp)

theorem ackOne_timestamp (mid : Nat) (m : Message) :
    (ackOne mid m).timestamp = m.timestamp := by
  unfold ackOne
  split
  · split <;> rfl
  · rfl

theorem sweepOne_timestamp (now : Nat) (m : Message) :
    (sweepOne now m).timestamp = m.timestamp := by
  unfold sweepOne
  split
  · split <;> rfl
  · rfl

/-- C9: history(limit) returns the messages most recent first, and each
returned entry carries id, timestamp, seconds_ago, source, dest,
direction, content and delivery_state of a logged message; the log
operations keep the newest-first invariant. -/
theorem history_recent_first :
    (∀ st now limit, recentFirst st.messages →
      (history st now limit).Pairwise (fun a b => b.timestamp ≤ a.timestamp)) ∧
    (∀ st now limit v, v ∈ history st now limit →
      ∃ m ∈ st.messages, v.id = m.id ∧ v.timestamp = m.timestamp ∧
        v.seconds_ago = seconds_ago now m.timestamp ∧ v.source = m.source ∧
        v.dest = m.dest ∧ v.direction = m.direction ∧ v.content = m.content ∧
        v.delivery_state = m.delivery_state) ∧
    (∀ st content dest now, recentFirst st.messages →
      (∀ m ∈ st.messages, m.timestamp ≤ now) →
      recentFirst (submit st content dest now).1.messages) ∧
    (∀ st mid, recentFirst st.messages → recentFirst (on_ack st mid).messages) ∧
    (∀ st now, recentFirst st.messages → recentFirst (sweep st now).messages) := by
  refine ⟨?_, ?_, ?_, ?_, ?_⟩
  · intro st now limit h
    rw [history, List.pairwise_map]
    exact ((h.sublist (List.take_sublist limit st.messages)).imp (fun hab => hab))
  · intro st now limit v hv
    rw [history, List.mem_map] at hv
    obtain ⟨m, hm, rfl⟩ := hv
    exact ⟨m, List.take_subset limit st.messages hm, rfl, rfl, rfl, rfl, rfl,
      rfl, rfl, rfl⟩
  · intro st content dest now h hle
    rw [recentFirst, submit, List.pairwise_cons]
    exact ⟨fun m hm => hle m hm, h⟩
  · intro st mid h
    rw [recentFirst, on_ack, List.pairwise_map]
    exact h.imp (fun hab => by simpa [ackOne_timestamp] using hab)
  · intro st now h
    rw [recentFirst, sweep, List.pairwise_map]
    exact h.imp (fun hab => by simpa [sweepOne_timestamp] using hab)

/-- Witness for C9: a two-message log is served newest first with all
fields present. -/
theorem history_recent_first_witness :
    (history ⟨[], [⟨1, 9, 0, 2, .outbound, "b", .PENDING⟩,
          ⟨0, 4, 3, 0, .inbound, "a", .CONFIRMED⟩], 2⟩ 10 5).Pairwise
        (fun a b => b.timestamp ≤ a.timestamp) ∧
      recentFirst (submit ⟨[], [], 0⟩ "a" 2 5).1.messages :=
  ⟨history_recent_first.1 ⟨[], [⟨1, 9, 0, 2, .outbound, "b", .PENDING⟩,
        ⟨0, 4, 3, 0, .inbound, "a", .CONFIRMED⟩], 2⟩ 10 5
      (by simp [recentFirst, List.pairwise_cons]),
    history_recent_first.2.2.1 ⟨[], [], 0⟩ "a" 2 5
      (by simp [recentFirst]) (by simp)⟩

/-- Modelled from the spec: the only send-path failure — content over the
length limit. -/
inductive SendError
  | MessageTooLong
deriving DecidableEq, Repr

/-- Modelled from the spec: message length limit for user-originated chat
text (spec 4.1, 6; README "Message length is limited to 120 characters"). -/
def MAX_TEXT_LEN : Nat := 120

/-- Modelled from the spec: the web send path behind /broadcast
(broadcastMessage in flash-ui/app/page.tsx is the caller) — the limit is
enforced before encoding, never by truncation. -/
def sendChat (content : String) (dest : Nat) : Except SendError (List Nat) :=
  if MAX_TEXT_LEN < content.length then .error .MessageTooLong
  else .ok (encode (.TextMessage 0 dest content))

/-- C7: chat text longer than 120 characters is rejected before encoding —
no frame is produced; text of at most 120 characters passes the check and
is encoded whole, never truncated. -/
theorem send_length_limit (content : String) (dest : Nat) :
    (120 < content.length →
      sendChat content dest = .error .MessageTooLong) ∧
    (content.length ≤ 120 →
      sendChat content dest = .ok (encode (.TextMessage 0 dest content)) ∧
        decode (encode (.TextMessage 0 dest content))
          = .ok (.TextMessage 0 dest content)) := by
  constructor
  · intro h
    simp [sendChat, MAX_TEXT_LEN, h]
  · intro h
    refine ⟨by simp [sendChat, MAX_TEXT_LEN, Nat.not_lt.mpr h], ?_⟩
    rw [encode, decode_body_checksum]
    exact decodeBody_encodeBody _ rfl

/-- Witness for C7: a 121-character text is refused, a short one goes
through and round-trips. -/
theorem send_length_limit_witness :
    sendChat ⟨List.replicate 121 Char.instInhabited.default⟩ 3
        = .error .MessageTooLong ∧
      sendChat ("hi") 3 = .ok (encode (.TextMessage 0 3 ("hi"))) :=
  ⟨(send_length_limit ⟨List.replicate 121 Char.instInhabited.default⟩ 3).1
      (by simp [String.length]),
    ((send_length_limit ("hi") 3).2 (by decide)).1⟩

/-- Modelled from the spec: pairing state of a chat group (spec 4.5, data
model; REJECTED is the terminal "leave group immediately" outcome). -/
inductive PairingState
  | UNPAIRED
  | AWAITING_OTP
  | PAIRED
  | REJECTED
deriving DecidableEq, Repr

/-- Modelled from the spec: events a chat group delivers to the gate —
the bot joining, a text message, or any non-text event. -/
inductive ChatEvent
  | joinGroup
  | textMsg (s : String)
  | nonText
deriving DecidableEq, Repr

/-- Modelled from the spec: one step of the Telegram pairing gate
(spec 4.5; README "The next message sent to this group should be the OTP
code"). -/
def pairingStep (otp : String) : PairingState → ChatEvent → PairingState
  | .UNPAIRED, .joinGroup => .AWAITING_OTP
  | .UNPAIRED, _ => .UNPAIRED
  | .AWAITING_OTP, .textMsg s => if s = otp then .PAIRED else .REJECTED
  | .AWAITING_OTP, .nonText => .REJECTED
  | .AWAITING_OTP, .joinGroup => .AWAITING_OTP
  | .PAIRED, _ => .PAIRED
  | .REJECTED, _ => .REJECTED

/-- Modelled from the spec: the gate run over a sequence of group events. -/
def pairingRun (otp : String) (st : PairingState) (evs : List ChatEvent) :
    PairingState :=
  evs.foldl (pairingStep otp) st

/-- Modelled from the spec: group events that count as the "first message"
(the join itself is not a message). -/
def isMessage : ChatEvent → Bool
  | .joinGroup => false
  | .textMsg _ => true
  | .nonText => true

theorem pairingRun_rejected (otp : String) (evs : List ChatEvent) :
    pairingRun otp .REJECTED evs = .REJECTED := by
  induction evs with
  | nil => rfl
  | cons e tl ih =>
    rw [pairingRun, List.foldl_cons]
    cases e <;> exact ih

/-- C2: from AWAITING_OTP the first message decides: matching text pairs,
non-matching text or any non-text event rejects; REJECTED is terminal, so
no later sequence of events (even a correct OTP) can reach PAIRED; the
gate never remains in AWAITING_OTP after the first message. -/
theorem pairing_gate_first_message :
    (∀ otp, pairingStep otp .AWAITING_OTP (.textMsg otp) = .PAIRED) ∧
    (∀ otp s, s ≠ otp →
      pairingStep otp .AWAITING_OTP (.textMsg s) = .REJECTED) ∧
    (∀ otp, pairingStep otp .AWAITING_OTP .nonText = .REJECTED) ∧
    (∀ otp evs, pairingRun otp .REJECTED evs ≠ .PAIRED) ∧
    (∀ otp e, isMessage e = true →
      pairingStep otp .AWAITING_OTP e ≠ .AWAITING_OTP) := by
  refine ⟨?_, ?_, ?_, ?_, ?_⟩
  · intro otp
    simp [pairingStep]
  · intro otp s h
    simp [pairingStep, h]
  · intro otp
    rfl
  · intro otp evs
    rw [pairingRun_rejected]
    decide
  · intro otp e he
    cases e with
    | joinGroup => simp [isMessage] at he
    | textMsg s =>
        by_cases h : s = otp <;> simp [pairingStep, h]
    | nonText => simp [pairingStep]

/-- Witness for C2: a wrong first message rejects, and a correct OTP sent
afterwards cannot pair. -/
theorem pairing_gate_first_message_witness :
    pairingStep ("4913") .AWAITING_OTP (.textMsg ("guess")) = .REJECTED ∧
      pairingRun ("4913") .REJECTED [.textMsg ("4913")] ≠ .PAIRED ∧
      pairingStep ("4913") .AWAITING_OTP (.textMsg ("guess")) ≠ .AWAITING_OTP :=
  ⟨pairing_gate_first_message.2.1 ("4913") ("guess") (by decide),
    pairing_gate_first_message.2.2.2.1 ("4913") [.textMsg ("4913")],
    pairing_gate_first_message.2.2.2.2 ("4913") (.textMsg ("guess")) (by decide)⟩

/-- Modelled from the spec: one deploy-mode observation — rssi in dBm and
whether the ping was answered (spec data model DeploySample). -/
structure DeploySample where
  rssi : Int
  ack_received : Bool
deriving DecidableEq, Repr

/-- Modelled from the spec: normalized RSSI — clamped map sending the
−100 dBm floor to 0 and the −30 dBm ceiling to 100 (spec 4.4). -/
def rssiScore (r : Int) : Int := min 100 (max 0 ((r + 100) * 100 / 70))

/-- Modelled from the spec: observed packet-loss percentage over the
window. -/
def lossPct (w : List DeploySample) : Nat :=
  if w.length = 0 then 0
  else (w.filter (fun s => !s.ack_received)).length * 100 / w.length

/-- Modelled from the spec: mean RSSI over the window (floor when empty). -/
def avgRssi (w : List DeploySample) : Int :=
  if w.length = 0 then -100 else (w.map (fun s => s.rssi)).sum / w.length

/-- Modelled from the spec: blended quality score — capped by normalized
RSSI and penalized at twice the loss percentage, so loss of 30% or more
pulls the score below the operational 50% threshold; clamped to [0,100]
(spec 4.4 and design note on the open blend formula). -/
def quality (w : List DeploySample) : Int :=
  max 0 (min (rssiScore (avgRssi w)) (100 - 2 * (lossPct w : Int)))

/-- Modelled from the spec: deploy mode exits after a fixed 30-second
dwell with no qualifying motion (spec 4.4; README step 5). -/
def STATIONARY_TIMEOUT : Nat := 30

/-- Modelled from the spec: `is_stationary_timeout(elapsed_without_motion)`
fires once the dwell reaches 30 seconds. -/
def is_stationary_timeout (elapsed : Nat) : Bool :=
  STATIONARY_TIMEOUT ≤ elapsed

/-- C8: quality() stays in [0,100]; samples at −30 dBm with 0% loss score
100, samples at −100 dBm with 50% loss score 0 (well below 50); 30%
loss already forces the score below 50 even at perfect RSSI; and
is_stationary_timeout is true exactly when 30 seconds have elapsed. -/
theorem deploy_quality_bounds :
    (∀ w, 0 ≤ quality w ∧ quality w ≤ 100) ∧
    quality [⟨-30, true⟩, ⟨-30, true⟩] = 100 ∧
    quality [⟨-100, true⟩, ⟨-100, false⟩] = 0 ∧
    quality [⟨-30, true⟩, ⟨-30, true⟩, ⟨-30, true⟩, ⟨-30, true⟩, ⟨-30, true⟩,
        ⟨-30, true⟩, ⟨-30, true⟩, ⟨-30, false⟩, ⟨-30, false⟩, ⟨-30, false⟩] < 50 ∧
    (∀ elapsed, is_stationary_timeout elapsed = true ↔ 30 ≤ elapsed) := by
  refine ⟨?_, by decide, by decide, by decide, ?_⟩
  · intro w
    constructor
    · exact le_max_left 0 _
    · exact max_le (by norm_num)
        (le_trans (min_le_left _ _) (min_le_left 100 _))
  · intro elapsed
    simp [is_stationary_timeout, STATIONARY_TIMEOUT]

/-- BotInfo as declared in the Bot Control page (src/unnamed/part_001):
exactly the fields username, name, password; the page's "OTP Code:" row
renders botInfo.password. -/
structure BotInfo where
  username : String
  name : String
  password : String
deriving DecidableEq, Repr

/-- Embedded from the source: handleCopyPassword copies botInfo.password
to the clipboard, and does nothing while botInfo is null. -/
def handleCopyPassword : Option BotInfo → Option String
  | none => none
  | some b => some b.password

/-- Embedded from the source: the string the "OTP Code:" row of the Bot
Control page displays. -/
def displayedOtpCode (b : BotInfo) : String := b.password

/-- C10: the /bot/get_info record has exactly the fields username, name
and password; the current OTP is carried in — and displayed and copied
from — the field named password, so every poll of the read path yields
the plaintext OTP. -/
theorem bot_info_password_is_otp :
    (∀ u n p, handleCopyPassword (some ⟨u, n, p⟩) = some p) ∧
    handleCopyPassword none = none ∧
    (∀ b, displayedOtpCode b = b.password) ∧
    (∀ u n p, (⟨u, n, p⟩ : BotInfo).username = u ∧
      (⟨u, n, p⟩ : BotInfo).name = n ∧ (⟨u, n, p⟩ : BotInfo).password = p) ∧
    (∀ a b : BotInfo, a.username = b.username → a.name = b.name →
      a.password = b.password → a = b) := by
  refine ⟨fun u n p => rfl, rfl, fun b => rfl, fun u n p => ⟨rfl, rfl, rfl⟩, ?_⟩
  intro a b h1 h2 h3
  cases a
  cases b
  simp_all

/-- Witness for C10: two records agreeing on the three declared fields are
the same record. -/
theorem bot_info_password_is_otp_witness :
    (⟨"locave_bot", "LoCave", "4913"⟩ : BotInfo)
      = ⟨"locave_bot", "LoCave", "4913"⟩ :=
  bot_info_password_is_otp.2.2.2.2 ⟨"locave_bot", "LoCave", "4913"⟩
    ⟨"locave_bot", "LoCave", "4913"⟩ rfl rfl rfl

end LoCave
